import Mathlib

/-!
Shallow embedding of the GR Online Shopping (Rudra tailoring shop)
Express/Mongoose backend.

The route handlers are transcribed from the current server (the Express code
in `src/frontend/js/api.js`, after the frontend API client) and, where a
claim cites it, from the legacy server variant (`src/unnamed/part_001`).
Persistent Mongo collections (users, products, carts, orders, password-reset
tickets) are modelled as lists; each handler becomes a pure function from
request and state to response and state.  External collaborators that the
handlers only thread through (bcrypt, JWT signing, the mail transporter)
are modelled abstractly: hashing as an opaque-but-executable tagging
function, tokens as records carrying the signed claims, mail as a counter.
-/

/-- HTTP response as the handlers produce it: a status code plus either a
success message body (`res.json({ message })`) or an error body
(`res.status(s).json({ error })`). -/
inductive Resp where
  | ok (status : Nat) (message : String)
  | err (status : Nat) (error : String)
deriving DecidableEq, Repr

/-- JS `String.prototype.toLowerCase()` on the ASCII range, used by the
current server for username/email normalization (`username.toLowerCase()`,
schema `lowercase: true`). -/
def lowerStr (s : String) : String :=
  String.mk (s.data.map Char.toLower)

/-- Stand-in for the external `bcrypt.hash(pw, 12)` collaborator used by the
current server; the handlers only store and compare its output. -/
def bhash (pw : String) : String :=
  "$2b$12$" ++ pw

/-- Stand-in for the external `bcrypt.hash(pw, 10)` collaborator used by the
legacy server variant. -/
def bhashLegacy (pw : String) : String :=
  "$2b$10$" ++ pw

/-- A stored user document: the fields the authentication routes consult.
`password` holds the bcrypt hash. -/
structure UserRec where
  username : String
  email : String
  password : String
  isActive : Bool
deriving DecidableEq, Repr

/-- `User.findOne({ username, isActive: true })` from the login route. -/
def findUserByUsername : List UserRec → String → Option UserRec
  | [], _ => none
  | u :: us, uname =>
    if u.username = uname ∧ u.isActive then some u else findUserByUsername us uname

/-- `User.findOne({ email })` from the forgot-password route. -/
def findUserByEmail : List UserRec → String → Option UserRec
  | [], _ => none
  | u :: us, mail =>
    if u.email = mail then some u else findUserByEmail us mail

/-- The login route's response: a success body carrying the token's user
data, or a failure status and error message. -/
inductive LoginResp where
  | success (username email : String)
  | failure (status : Nat) (error : String)
deriving DecidableEq, Repr

/-- POST `/api/auth/login` (current server).  Looks up the lowercased
username among active users, then verifies the password with the external
`bcrypt.compare` collaborator (passed in as `compare`); both the
user-absent and wrong-password branches answer 400 "Invalid credentials". -/
def login (compare : String → String → Bool) (users : List UserRec)
    (username password : String) : LoginResp :=
  match findUserByUsername users (lowerStr username) with
  | none => .failure 400 "Invalid credentials"
  | some u =>
    if compare password u.password then .success u.username u.email
    else .failure 400 "Invalid credentials"

/-- POST `/api/auth/register` (current server).  Rejects when a user with
the lowercased username or lowercased email already exists, otherwise
stores the user with lowercased username/email and a bcrypt(12) hash.  The
best-effort welcome mail does not affect the stored state or response. -/
def register (users : List UserRec) (username email pw : String) :
    Resp × List UserRec :=
  let uname := lowerStr username
  let mail := lowerStr email
  if users.any (fun u => u.username == uname || u.email == mail) then
    (.err 400 "Username or email already exists", users)
  else
    (.ok 201 "User registered successfully",
     users ++ [{ username := uname, email := mail, password := bhash pw, isActive := true }])

/-- POST `/api/auth/register` in the legacy server variant
(`src/unnamed/part_001`): the duplicate lookup and the stored document use
the request's raw casing, and the hash costs 10 rounds. -/
def registerLegacy (users : List UserRec) (username email pw : String) :
    Resp × List UserRec :=
  if users.any (fun u => u.username == username || u.email == email) then
    (.err 400 "Username or email already exists", users)
  else
    (.ok 201 "User registered successfully",
     users ++ [{ username := username, email := email, password := bhashLegacy pw,
                 isActive := true }])

/-- A reset token as `jwt.sign({ email }, JWT_SECRET, { expiresIn: '1h' })`
produces it: it binds the email claim; `iat` models the issue time that
makes two signings of the same email distinct values. -/
structure Token where
  email : String
  iat : Nat
deriving DecidableEq, Repr

/-- A `PasswordReset` document: one email/token pair. -/
structure ResetTicket where
  email : String
  token : Token
deriving DecidableEq, Repr

/-- State touched by the authentication routes: the `User` and
`PasswordReset` collections. -/
structure AuthState where
  users : List UserRec
  tickets : List ResetTicket
deriving DecidableEq, Repr

/-- `PasswordReset.findOneAndUpdate({ email }, { token }, { upsert: true })`:
replaces the token of the first ticket for the email, or inserts a fresh
ticket when none exists. -/
def upsertTicket : List ResetTicket → String → Token → List ResetTicket
  | [], mail, tok => [{ email := mail, token := tok }]
  | t :: ts, mail, tok =>
    if t.email = mail then { email := mail, token := tok } :: ts
    else t :: upsertTicket ts mail tok

/-- POST `/api/auth/forgot-password` (current server).  Answers 400 when no
user holds the lowercased email; otherwise signs a fresh token for the
email and upserts the single reset ticket.  The best-effort reset mail does
not affect state or response. -/
def forgotPassword (st : AuthState) (email : String) (iat : Nat) :
    Resp × AuthState :=
  let mail := lowerStr email
  match findUserByEmail st.users mail with
  | none => (.err 400 "User with this email does not exist", st)
  | some _ =>
    (.ok 200 "Password reset link sent to your email",
     { st with tickets := upsertTicket st.tickets mail (Token.mk mail iat) })

/-- `PasswordReset.findOne({ email, token })` rendered as a Boolean test. -/
def findTicket : List ResetTicket → String → Token → Bool
  | [], _, _ => false
  | t :: ts, mail, tok =>
    if t.email = mail ∧ t.token = tok then true else findTicket ts mail tok

/-- `User.findOneAndUpdate({ email }, { password })`: replaces the password
of the first user with the email. -/
def updatePasswordFirst : List UserRec → String → String → List UserRec
  | [], _, _ => []
  | u :: us, mail, h =>
    if u.email = mail then { u with password := h } :: us
    else u :: updatePasswordFirst us mail h

/-- `PasswordReset.deleteOne({ email, token })`: removes the first ticket
matching both fields. -/
def deleteFirstTicket : List ResetTicket → String → Token → List ResetTicket
  | [], _, _ => []
  | t :: ts, mail, tok =>
    if t.email = mail ∧ t.token = tok then ts
    else t :: deleteFirstTicket ts mail tok

/-- POST `/api/auth/reset-password` (current server).  Checks the new
password's length, recovers the email from the verified token, requires a
stored ticket matching both email and token, then replaces the user's hash
and deletes the consumed ticket. -/
def resetPassword (st : AuthState) (tok : Token) (newPassword : String) :
    Resp × AuthState :=
  if newPassword.length < 6 then
    (.err 400 "Password must be at least 6 characters long", st)
  else if findTicket st.tickets tok.email tok then
    (.ok 200 "Password reset successfully",
     { st with users := updatePasswordFirst st.users tok.email (bhash newPassword),
               tickets := deleteFirstTicket st.tickets tok.email tok })
  else
    (.err 400 "Invalid or expired reset token", st)

/-- At most one outstanding reset ticket per email. -/
def ticketEmailsNodup (tickets : List ResetTicket) : Prop :=
  (tickets.map ResetTicket.email).Nodup

instance (tickets : List ResetTicket) : Decidable (ticketEmailsNodup tickets) := by
  unfold ticketEmailsNodup
  infer_instance

/-- A catalog product: the fields the cart and order routes consult
(`price`, `isActive`); `pid` stands for the Mongo `_id`. -/
structure Product where
  pid : Nat
  price : Int
  isActive : Bool
deriving DecidableEq, Repr

/-- `Product.findById(id)` over the catalog list. -/
def findById (catalog : List Product) (pid : Nat) : Option Product :=
  catalog.find? (fun p => p.pid == pid)

/-- The `if (!product || !product.isActive)` guard of the cart-add and
order routes, folded into the lookup: an absent or deactivated product
resolves to `none`. -/
def findActiveById (catalog : List Product) (pid : Nat) : Option Product :=
  match findById catalog pid with
  | none => none
  | some p => if p.isActive then some p else none

/-- One line of a cart document: a product reference and a quantity. -/
structure CartItem where
  productId : Nat
  quantity : Int
deriving DecidableEq, Repr

/-- The product references of a cart, in order. -/
def cartPids (cart : List CartItem) : List Nat :=
  cart.map CartItem.productId

/-- No duplicate product reference in a cart. -/
def cartNodup (cart : List CartItem) : Prop :=
  (cartPids cart).Nodup

instance (cart : List CartItem) : Decidable (cartNodup cart) := by
  unfold cartNodup
  infer_instance

/-- The cart mutation of POST `/api/cart/add`: `cart.products.find(...)`
followed by `existingProduct.quantity += quantity` on the first line with
the product, or `cart.products.push({ productId, quantity })`. -/
def addToCart : List CartItem → Nat → Int → List CartItem
  | [], pid, qty => [{ productId := pid, quantity := qty }]
  | c :: cs, pid, qty =>
    if c.productId = pid then { c with quantity := c.quantity + qty } :: cs
    else c :: addToCart cs pid qty

/-- The line mutation of PUT `/api/cart/update`: at the `findIndex` hit,
`splice` the line out when the requested quantity is ≤ 0, otherwise assign
the quantity. -/
def updateFirst : List CartItem → Nat → Int → List CartItem
  | [], _, _ => []
  | c :: cs, pid, qty =>
    if c.productId = pid then
      (if qty ≤ 0 then cs else { c with quantity := qty } :: cs)
    else c :: updateFirst cs pid qty

/-- PUT `/api/cart/update` on a found cart: `none` models the 404
"Product not found in cart" branch (`findIndex === -1`). -/
def updateCart (cart : List CartItem) (pid : Nat) (qty : Int) :
    Option (List CartItem) :=
  if cart.any (fun c => c.productId == pid) then some (updateFirst cart pid qty)
  else none

/-- DELETE `/api/cart/remove/:productId`:
`cart.products.filter(p => p.productId.toString() !== productId)`. -/
def removeFromCart (cart : List CartItem) (pid : Nat) : List CartItem :=
  cart.filter (fun c => c.productId != pid)

/-- The quantity the cart holds for a product, through the same
first-match lookup the handlers use. -/
def cartQty : List CartItem → Nat → Option Int
  | [], _ => none
  | c :: cs, pid => if c.productId = pid then some c.quantity else cartQty cs pid

/-- A line item of an order request body: product reference, quantity, the
untrusted client-supplied price field, and the tailoring measurements that
are carried over verbatim. -/
structure OrderItem where
  productId : Nat
  quantity : Int
  clientPrice : Option Int
  measurements : String
deriving DecidableEq, Repr

/-- A persisted order line of the current server: the client's quantity and
measurements with the price snapshot taken from the live catalog
(`{ ...item, price: product.price }`). -/
structure OrderLine where
  productId : Nat
  quantity : Int
  price : Int
  measurements : String
deriving DecidableEq, Repr

/-- The body of POST `/api/orders`:
`{ products, deliveryAddress, paymentMethod, totalAmount }` as the handler
destructures it.  `totalAmount` is the client-sent total. -/
structure OrderRequest where
  products : List OrderItem
  deliveryAddress : String
  paymentMethod : String
  totalAmount : Int
deriving DecidableEq, Repr

/-- A persisted order document of the current server (the fields the
handler sets; `status` defaults to "Placed" in the schema). -/
structure SavedOrder where
  products : List OrderLine
  deliveryAddress : String
  paymentMethod : String
  totalAmount : Int
  deliveryCharge : Int
  status : String
deriving DecidableEq, Repr

/-- State touched by POST `/api/orders` for the requesting user: the order
collection, the user's cart lines, and the number of confirmation mails
handed to the transporter. -/
structure OrderState where
  orders : List SavedOrder
  cart : List CartItem
  emailsSent : Nat
deriving DecidableEq, Repr

/-- The validation loop of POST `/api/orders` (current server): resolve
each line's product, abort with the 400 message at the first absent or
inactive product, otherwise accumulate `product.price * item.quantity`
into the running total and snapshot the resolved price onto the line. -/
def validateItems (catalog : List Product) :
    List OrderItem → Except String (List OrderLine × Int)
  | [] => .ok ([], 0)
  | item :: rest =>
    match findActiveById catalog item.productId with
    | none => .error ("Product " ++ toString item.productId ++ " not found")
    | some p =>
      match validateItems catalog rest with
      | .error e => .error e
      | .ok (lines, total) =>
        .ok ({ productId := item.productId, quantity := item.quantity,
               price := p.price, measurements := item.measurements } :: lines,
             p.price * item.quantity + total)

/-- The first product reference of the request that fails resolution, the
one the handler's 400 message names. -/
def firstInvalid (catalog : List Product) : List OrderItem → Option Nat
  | [] => none
  | item :: rest =>
    match findActiveById catalog item.productId with
    | none => some item.productId
    | some _ => firstInvalid catalog rest

/-- POST `/api/orders` (current server).  After validation the handler adds
the fixed delivery charge of 3, persists the order (`order.save()`), clears
the cart, and sends the confirmation mail; the mail send sits in its own
try/catch (failure logged and swallowed) while a cart-clear failure
propagates to the outer catch, which answers 500 after the order was
already saved.  `cartClearFails` / `emailFails` inject failures of those
two external calls. -/
def createOrderFull (catalog : List Product) (req : OrderRequest)
    (cartClearFails emailFails : Bool) (st : OrderState) : Resp × OrderState :=
  match validateItems catalog req.products with
  | .error e => (.err 400 e, st)
  | .ok (lines, total) =>
    let calculatedTotal := total + 3
    let order : SavedOrder :=
      { products := lines, deliveryAddress := req.deliveryAddress,
        paymentMethod := req.paymentMethod, totalAmount := calculatedTotal,
        deliveryCharge := 3, status := "Placed" }
    let st1 := { st with orders := st.orders ++ [order] }
    if cartClearFails then (.err 500 "Internal server error", st1)
    else
      let st2 := { st1 with cart := [] }
      let st3 :=
        if emailFails then st2 else { st2 with emailsSent := st2.emailsSent + 1 }
      (.ok 201 "Order placed successfully", st3)

/-- A persisted order of the legacy server variant: its schema stores no
per-line price and the handler stores the request's fields verbatim. -/
structure LegacyOrder where
  products : List OrderItem
  deliveryAddress : String
  paymentMethod : String
  totalAmount : Int
deriving DecidableEq, Repr

/-- Order-route state of the legacy server variant. -/
structure LegacyState where
  orders : List LegacyOrder
  cart : List CartItem
deriving DecidableEq, Repr

/-- POST `/api/orders` in the legacy server variant
(`src/unnamed/part_001`): no catalog lookup, no recomputation — the order
is persisted with the client-sent products and `totalAmount`, then the
cart is cleared. -/
def createOrderLegacy (req : OrderRequest) (st : LegacyState) :
    Resp × LegacyState :=
  (.ok 201 "Order placed successfully",
   { orders := st.orders ++
      [{ products := req.products, deliveryAddress := req.deliveryAddress,
         paymentMethod := req.paymentMethod, totalAmount := req.totalAmount }],
     cart := [] })

/-- The server-side recomputed total the specification demands: the live
catalog price of each line's product times its quantity, summed. -/
def catalogTotal (catalog : List Product) : List OrderItem → Int
  | [] => 0
  | item :: rest =>
    (match findActiveById catalog item.productId with
     | some p => p.price
     | none => 0) * item.quantity + catalogTotal catalog rest

/-- The part of a request line the current order handler's pricing actually
reads: product reference and quantity (client price and measurements do
not enter the total). -/
def itemSkeleton (item : OrderItem) : Nat × Int :=
  (item.productId, item.quantity)

/-- C5: a login attempt with an existing (active) username and a wrong
password and one with a nonexistent username produce identical responses:
status 400 with the error payload "Invalid credentials". -/
theorem c5_login_uniform_failure (compare : String → String → Bool)
    (users : List UserRec) (u1 p1 u2 p2 : String) (urec : UserRec)
    (h1 : findUserByUsername users (lowerStr u1) = some urec)
    (h2 : compare p1 urec.password = false)
    (h3 : findUserByUsername users (lowerStr u2) = none) :
    login compare users u1 p1 = login compare users u2 p2 ∧
    login compare users u1 p1 = LoginResp.failure 400 "Invalid credentials" := by
  unfold login
  rw [h1, h3]
  simp [h2]

theorem c5_login_uniform_failure_witness :
    login (fun a b => a == b) [⟨"alice", "a@b.com", "h1", true⟩] "alice" "wrong"
      = login (fun a b => a == b) [⟨"alice", "a@b.com", "h1", true⟩] "bob" "pw" ∧
    login (fun a b => a == b) [⟨"alice", "a@b.com", "h1", true⟩] "alice" "wrong"
      = LoginResp.failure 400 "Invalid credentials" :=
  c5_login_uniform_failure (fun a b => a == b) [⟨"alice", "a@b.com", "h1", true⟩]
    "alice" "wrong" "bob" "pw" ⟨"alice", "a@b.com", "h1", true⟩
    (by decide) (by decide) (by decide)

/-- C10: the forgot-password route answers the 400 error "User with this
email does not exist" exactly when no user holds the submitted (lowercased)
email, and answers the success message whenever one does — so the response
observably reveals whether an email has an account. -/
theorem c10_forgot_password_reveals (st : AuthState) (email : String) (iat : Nat) :
    ((forgotPassword st email iat).1
        = Resp.err 400 "User with this email does not exist"
      ↔ findUserByEmail st.users (lowerStr email) = none) ∧
    (findUserByEmail st.users (lowerStr email) ≠ none →
      (forgotPassword st email iat).1
        = Resp.ok 200 "Password reset link sent to your email") := by
  cases h : findUserByEmail st.users (lowerStr email) with
  | none => simp [forgotPassword, h]
  | some u => simp [forgotPassword, h]

theorem c10_forgot_password_reveals_witness :
    ((forgotPassword ⟨[⟨"u", "a@b.com", "h", true⟩], []⟩ "A@b.com" 0).1
        = Resp.err 400 "User with this email does not exist"
      ↔ findUserByEmail [⟨"u", "a@b.com", "h", true⟩] (lowerStr "A@b.com") = none) ∧
    (findUserByEmail [⟨"u", "a@b.com", "h", true⟩] (lowerStr "A@b.com") ≠ none →
      (forgotPassword ⟨[⟨"u", "a@b.com", "h", true⟩], []⟩ "A@b.com" 0).1
        = Resp.ok 200 "Password reset link sent to your email") :=
  c10_forgot_password_reveals ⟨[⟨"u", "a@b.com", "h", true⟩], []⟩ "A@b.com" 0

/-- C9 counterexample: the legacy register handler compares and stores the
request's raw casing, so two registrations whose emails differ only in
letter casing both succeed (two users end up stored) instead of the second
being rejected as a duplicate. -/
theorem c9_counterexample :
    (registerLegacy (registerLegacy [] "alice" "A@b.com" "secret1").2
        "bob" "a@b.com" "secret2").1 = Resp.ok 201 "User registered successfully" ∧
    lowerStr "a@b.com" = lowerStr "A@b.com" ∧
    (registerLegacy (registerLegacy [] "alice" "A@b.com" "secret1").2
        "bob" "a@b.com" "secret2").2.length = 2 := by
  refine ⟨by decide, by decide, by decide⟩

/-- C9 (amended): in the current server's register handler a successful
registration stores lowercased username and email, and any later
registration whose username or email differs only in letter casing is
rejected as a duplicate. -/
theorem c9_register_case_insensitive (users : List UserRec)
    (u1 e1 p1 u2 e2 p2 : String)
    (hsucc : (register users u1 e1 p1).1 = Resp.ok 201 "User registered successfully")
    (hdup : lowerStr u2 = lowerStr u1 ∨ lowerStr e2 = lowerStr e1) :
    (register (register users u1 e1 p1).2 u2 e2 p2).1
      = Resp.err 400 "Username or email already exists" := by
  by_cases hc : users.any (fun u => u.username == lowerStr u1 || u.email == lowerStr e1)
  · simp [register, hc] at hsucc
  · have hstore : (register users u1 e1 p1).2
        = users ++ [UserRec.mk (lowerStr u1) (lowerStr e1) (bhash p1) true] := by
      simp [register, hc]
    rw [hstore]
    have hany : ((users ++ [UserRec.mk (lowerStr u1) (lowerStr e1) (bhash p1) true]).any
          (fun u => u.username == lowerStr u2 || u.email == lowerStr e2)) = true := by
      rw [List.any_eq_true]
      refine ⟨UserRec.mk (lowerStr u1) (lowerStr e1) (bhash p1) true, by simp, ?_⟩
      rcases hdup with h | h
      · simp [h]
      · simp [h]
    simp [register, hany]

theorem c9_register_case_insensitive_witness :
    (register (register [] "Bob" "A@b.com" "secret1").2 "carol" "a@B.com" "pw2").1
      = Resp.err 400 "Username or email already exists" :=
  c9_register_case_insensitive [] "Bob" "A@b.com" "secret1" "carol" "a@B.com" "pw2"
    (by decide) (Or.inr (by decide))

theorem addToCart_pids_mem (cart : List CartItem) (pid : Nat) (qty : Int)
    (hm : pid ∈ cartPids cart) :
    cartPids (addToCart cart pid qty) = cartPids cart := by
  induction cart with
  | nil => simp [cartPids] at hm
  | cons c cs ih =>
    by_cases h : c.productId = pid
    · simp [addToCart, cartPids, h]
    · have hm' : pid ∈ cartPids cs := by
        rcases (by simpa [cartPids] using hm : pid = c.productId ∨ pid ∈ cartPids cs) with
          h' | h'
        · exact absurd h'.symm h
        · exact h'
      have hrec := ih hm'
      simp only [cartPids] at hrec
      simp [addToCart, cartPids, h, hrec]

theorem addToCart_absent (cart : List CartItem) (pid : Nat) (qty : Int)
    (h : pid ∉ cartPids cart) :
    addToCart cart pid qty = cart ++ [CartItem.mk pid qty] := by
  induction cart with
  | nil => simp [addToCart]
  | cons c cs ih =>
    simp only [cartPids, List.map_cons, List.mem_cons, not_or] at h
    simp [addToCart, Ne.symm h.1, ih (by simpa [cartPids] using h.2)]

theorem addToCart_nodup (cart : List CartItem) (pid : Nat) (qty : Int)
    (h : cartNodup cart) : cartNodup (addToCart cart pid qty) := by
  unfold cartNodup at h ⊢
  by_cases hm : pid ∈ cartPids cart
  · rw [addToCart_pids_mem cart pid qty hm]
    exact h
  · rw [addToCart_absent cart pid qty hm]
    rw [cartPids, List.map_append]
    simp only [List.nodup_append, List.map_cons, List.map_nil]
    refine ⟨h, by simp, ?_⟩
    intro a ha
    simp only [List.mem_singleton]
    intro hc
    exact hm (by simpa [cartPids, hc] using ha)

theorem updateFirst_pids_sublist (cart : List CartItem) (pid : Nat) (qty : Int) :
    (cartPids (updateFirst cart pid qty)).Sublist (cartPids cart) := by
  induction cart with
  | nil => simp [updateFirst, cartPids]
  | cons c cs ih =>
    by_cases h : c.productId = pid
    · by_cases hq : qty ≤ 0
      · simp only [updateFirst, if_pos h, if_pos hq, cartPids, List.map_cons]
        exact (List.Sublist.refl _).cons _
      · simp only [updateFirst, if_pos h, if_neg hq, cartPids, List.map_cons]
        exact (List.Sublist.refl _).cons₂ _
    · simp only [updateFirst, if_neg h, cartPids, List.map_cons]
      exact ih.cons₂ _

theorem updateFirst_nodup (cart : List CartItem) (pid : Nat) (qty : Int)
    (h : cartNodup cart) : cartNodup (updateFirst cart pid qty) :=
  (updateFirst_pids_sublist cart pid qty).nodup h

theorem removeFromCart_nodup (cart : List CartItem) (pid : Nat)
    (h : cartNodup cart) : cartNodup (removeFromCart cart pid) :=
  ((List.filter_sublist cart).map CartItem.productId).nodup h

theorem cartQty_addToCart (cart : List CartItem) (pid : Nat) (qty : Int) :
    cartQty (addToCart cart pid qty) pid
      = some ((cartQty cart pid).getD 0 + qty) := by
  induction cart with
  | nil => simp [addToCart, cartQty]
  | cons c cs ih =>
    by_cases h : c.productId = pid
    · simp [addToCart, cartQty, h]
    · simp [addToCart, cartQty, h, ih]

theorem addToCart_append_same (cart : List CartItem) (pid : Nat) (q1 q2 : Int)
    (h : pid ∉ cartPids cart) :
    addToCart (cart ++ [CartItem.mk pid q1]) pid q2
      = cart ++ [CartItem.mk pid (q1 + q2)] := by
  induction cart with
  | nil => simp [addToCart]
  | cons c cs ih =>
    simp only [cartPids, List.map_cons, List.mem_cons, not_or] at h
    simp [addToCart, Ne.symm h.1, ih (by simpa [cartPids] using h.2)]

/-- C6: the add-to-cart mutation increments the existing line's quantity
when the product is already present and appends a new line otherwise, so
adding the same product twice yields one line carrying the summed quantity,
and the no-duplicate-product invariant is preserved by the add, update and
remove cart operations. -/
theorem c6_cart_no_duplicates (cart : List CartItem) (pid : Nat) (q q1 q2 : Int)
    (hnd : cartNodup cart) :
    cartNodup (addToCart cart pid q) ∧
    cartNodup ((updateCart cart pid q).getD []) ∧
    cartNodup (removeFromCart cart pid) ∧
    cartQty (addToCart cart pid q) pid = some ((cartQty cart pid).getD 0 + q) ∧
    (pid ∉ cartPids cart →
      addToCart (addToCart cart pid q1) pid q2
        = cart ++ [CartItem.mk pid (q1 + q2)]) := by
  refine ⟨addToCart_nodup cart pid q hnd, ?_, removeFromCart_nodup cart pid hnd,
    cartQty_addToCart cart pid q, ?_⟩
  · unfold updateCart
    by_cases hc : cart.any (fun c => c.productId == pid)
    · simpa [hc] using updateFirst_nodup cart pid q hnd
    · simp [hc, cartNodup, cartPids]
  · intro h
    rw [addToCart_absent cart pid q1 h]
    exact addToCart_append_same cart pid q1 q2 h

theorem c6_cart_no_duplicates_witness :
    cartNodup (addToCart [CartItem.mk 5 1] 7 2) ∧
    cartNodup ((updateCart [CartItem.mk 5 1] 7 2).getD []) ∧
    cartNodup (removeFromCart [CartItem.mk 5 1] 7) ∧
    cartQty (addToCart [CartItem.mk 5 1] 7 2) 7
      = some ((cartQty [CartItem.mk 5 1] 7).getD 0 + 2) ∧
    (7 ∉ cartPids [CartItem.mk 5 1] →
      addToCart (addToCart [CartItem.mk 5 1] 7 3) 7 4
        = [CartItem.mk 5 1] ++ [CartItem.mk 7 (3 + 4)]) :=
  c6_cart_no_duplicates [CartItem.mk 5 1] 7 2 3 4 (by decide)

theorem cartQty_updateFirst_pos (cart : List CartItem) (pid : Nat) (q : Int)
    (hmem : pid ∈ cartPids cart) (hq : ¬ q ≤ 0) :
    cartQty (updateFirst cart pid q) pid = some q := by
  induction cart with
  | nil => simp [cartPids] at hmem
  | cons c cs ih =>
    by_cases h : c.productId = pid
    · simp [updateFirst, h, hq, cartQty]
    · have : pid ∈ cartPids cs := by
        rcases (by simpa [cartPids] using hmem : pid = c.productId ∨ pid ∈ cartPids cs) with
          h' | h'
        · exact absurd h'.symm h
        · exact h'
      simp [updateFirst, h, cartQty, ih this]

theorem cartPids_updateFirst_neg (cart : List CartItem) (pid : Nat) (q : Int)
    (hnd : cartNodup cart) (hq : q ≤ 0) :
    pid ∉ cartPids (updateFirst cart pid q) := by
  induction cart with
  | nil => simp [updateFirst, cartPids]
  | cons c cs ih =>
    rw [cartNodup, cartPids, List.map_cons, List.nodup_cons] at hnd
    by_cases h : c.productId = pid
    · rw [updateFirst, if_pos h]
      rw [if_pos hq]
      rw [← h]
      exact hnd.1
    · rw [updateFirst, if_neg h]
      simp only [cartPids, List.map_cons, List.mem_cons, not_or]
      exact ⟨Ne.symm h, ih hnd.2⟩

/-- C7: a cart-update call on a line that exists sets the line's quantity
when the requested quantity is positive, and removes the line entirely
(no line for the product remains, in particular none with quantity zero)
when the requested quantity is zero or below. -/
theorem c7_cart_update (cart : List CartItem) (pid : Nat) (q : Int)
    (hmem : pid ∈ cartPids cart) (hnd : cartNodup cart) :
    updateCart cart pid q = some (updateFirst cart pid q) ∧
    (0 < q → cartQty (updateFirst cart pid q) pid = some q) ∧
    (q ≤ 0 → pid ∉ cartPids (updateFirst cart pid q)) := by
  refine ⟨?_, ?_, fun hq => cartPids_updateFirst_neg cart pid q hnd hq⟩
  · have : cart.any (fun c => c.productId == pid) = true := by
      rw [List.any_eq_true]
      rcases (by simpa [cartPids, List.mem_map] using hmem :
          ∃ c, c ∈ cart ∧ c.productId = pid) with ⟨c, hc, hcp⟩
      exact ⟨c, hc, by simp [hcp]⟩
    simp [updateCart, this]
  · intro hq
    exact cartQty_updateFirst_pos cart pid q hmem (by omega)

theorem c7_cart_update_witness :
    updateCart [CartItem.mk 5 1, CartItem.mk 7 2] 7 0
      = some (updateFirst [CartItem.mk 5 1, CartItem.mk 7 2] 7 0) ∧
    ((0 : Int) < 0 → cartQty (updateFirst [CartItem.mk 5 1, CartItem.mk 7 2] 7 0) 7
      = some 0) ∧
    ((0 : Int) ≤ 0 → 7 ∉ cartPids (updateFirst [CartItem.mk 5 1, CartItem.mk 7 2] 7 0)) :=
  c7_cart_update [CartItem.mk 5 1, CartItem.mk 7 2] 7 0 (by decide) (by decide)

theorem resetPassword_fails (st : AuthState) (tok : Token) (p : String)
    (h : findTicket st.tickets tok.email tok = false) :
    (resetPassword st tok p).1 ≠ Resp.ok 200 "Password reset successfully" := by
  by_cases hlen : p.length < 6
  · simp [resetPassword, hlen]
  · simp [resetPassword, hlen, h]

theorem upsertTicket_emails_mem (ts : List ResetTicket) (mail : String) (tok : Token)
    (hm : mail ∈ ts.map ResetTicket.email) :
    (upsertTicket ts mail tok).map ResetTicket.email = ts.map ResetTicket.email := by
  induction ts with
  | nil => simp at hm
  | cons t ts ih =>
    by_cases h : t.email = mail
    · simp [upsertTicket, h]
    · have hm' : mail ∈ ts.map ResetTicket.email := by
        rcases (by simpa using hm : mail = t.email ∨ mail ∈ ts.map ResetTicket.email) with
          h' | h'
        · exact absurd h'.symm h
        · exact h'
      simp [upsertTicket, h, ih hm']

theorem upsertTicket_absent (ts : List ResetTicket) (mail : String) (tok : Token)
    (hm : mail ∉ ts.map ResetTicket.email) :
    upsertTicket ts mail tok = ts ++ [ResetTicket.mk mail tok] := by
  induction ts with
  | nil => simp [upsertTicket]
  | cons t ts ih =>
    simp only [List.map_cons, List.mem_cons, not_or] at hm
    simp [upsertTicket, Ne.symm hm.1, ih (by simpa using hm.2)]

theorem upsertTicket_nodup (ts : List ResetTicket) (mail : String) (tok : Token)
    (h : ticketEmailsNodup ts) : ticketEmailsNodup (upsertTicket ts mail tok) := by
  unfold ticketEmailsNodup at h ⊢
  by_cases hm : mail ∈ ts.map ResetTicket.email
  · rw [upsertTicket_emails_mem ts mail tok hm]
    exact h
  · rw [upsertTicket_absent ts mail tok hm, List.map_append]
    simp only [List.nodup_append, List.map_cons, List.map_nil]
    refine ⟨h, by simp, ?_⟩
    intro a ha
    simp only [List.mem_singleton]
    intro hc
    exact hm (by simpa [hc] using ha)

theorem ticketFilter_nil (ts : List ResetTicket) (mail : String)
    (hm : mail ∉ ts.map ResetTicket.email) :
    ts.filter (fun t => t.email == mail) = [] := by
  induction ts with
  | nil => rfl
  | cons t ts ih =>
    simp only [List.map_cons, List.mem_cons, not_or] at hm
    simp [List.filter_cons, Ne.symm hm.1, ih (by simpa using hm.2)]

theorem upsertTicket_filter (ts : List ResetTicket) (mail : String) (tok : Token)
    (hnd : ticketEmailsNodup ts) :
    (upsertTicket ts mail tok).filter (fun t => t.email == mail)
      = [ResetTicket.mk mail tok] := by
  induction ts with
  | nil => simp [upsertTicket]
  | cons t ts ih =>
    rw [ticketEmailsNodup, List.map_cons, List.nodup_cons] at hnd
    by_cases h : t.email = mail
    · rw [upsertTicket, if_pos h]
      rw [List.filter_cons]
      simp only [beq_self_eq_true, if_pos]
      rw [ticketFilter_nil ts mail (h ▸ hnd.1)]
    · rw [upsertTicket, if_neg h]
      rw [List.filter_cons]
      simp only [beq_iff_eq, h, ite_false]
      exact ih hnd.2

theorem findTicket_iff (ts : List ResetTicket) (mail : String) (tok : Token) :
    findTicket ts mail tok = true ↔ ResetTicket.mk mail tok ∈ ts := by
  induction ts with
  | nil => simp [findTicket]
  | cons t ts ih =>
    by_cases h : t.email = mail ∧ t.token = tok
    · have ht : t = ResetTicket.mk mail tok := by
        cases t
        simp_all
      simp [findTicket, h, ht]
    · have ht : t ≠ ResetTicket.mk mail tok := by
        intro hc
        exact h (by simp [hc])
      simp [findTicket, h, ih, Ne.symm ht]

theorem findTicket_email_absent (ts : List ResetTicket) (mail : String) (tok : Token)
    (hm : mail ∉ ts.map ResetTicket.email) : findTicket ts mail tok = false := by
  by_contra hc
  have : ResetTicket.mk mail tok ∈ ts :=
    (findTicket_iff ts mail tok).mp (by simpa using hc)
  exact hm (by simpa using List.mem_map_of_mem ResetTicket.email this)

theorem findTicket_delete (ts : List ResetTicket) (mail : String) (tok : Token)
    (hnd : ticketEmailsNodup ts) :
    findTicket (deleteFirstTicket ts mail tok) mail tok = false := by
  induction ts with
  | nil => rfl
  | cons t ts ih =>
    rw [ticketEmailsNodup, List.map_cons, List.nodup_cons] at hnd
    by_cases h : t.email = mail ∧ t.token = tok
    · rw [deleteFirstTicket, if_pos h]
      exact findTicket_email_absent ts mail tok (h.1 ▸ hnd.1)
    · rw [deleteFirstTicket, if_neg h]
      rw [findTicket, if_neg h]
      exact ih hnd.2

/-- C8: a forgot-password request keeps at most one outstanding reset
ticket per email and, when it succeeds, the only ticket stored for that
email is the freshly signed one (any previous one is overwritten); a reset
succeeds only if a matching ticket is still stored; and after a successful
reset the consumed ticket is deleted, so a second reset with the same
token never succeeds. -/
theorem c8_reset_ticket_single_use (st : AuthState) (email : String) (iat : Nat)
    (tok : Token) (p p' : String)
    (hnd : ticketEmailsNodup st.tickets) :
    ticketEmailsNodup (forgotPassword st email iat).2.tickets ∧
    ((forgotPassword st email iat).1
        = Resp.ok 200 "Password reset link sent to your email" →
      (forgotPassword st email iat).2.tickets.filter
          (fun t => t.email == lowerStr email)
        = [ResetTicket.mk (lowerStr email) (Token.mk (lowerStr email) iat)]) ∧
    ((resetPassword st tok p).1 = Resp.ok 200 "Password reset successfully" →
      ResetTicket.mk tok.email tok ∈ st.tickets) ∧
    ((resetPassword st tok p).1 = Resp.ok 200 "Password reset successfully" →
      (resetPassword (resetPassword st tok p).2 tok p').1
        ≠ Resp.ok 200 "Password reset successfully") := by
  refine ⟨?_, ?_, ?_, ?_⟩
  · cases h : findUserByEmail st.users (lowerStr email) with
    | none => simpa [forgotPassword, h] using hnd
    | some u => simpa [forgotPassword, h] using upsertTicket_nodup _ _ _ hnd
  · cases h : findUserByEmail st.users (lowerStr email) with
    | none => simp [forgotPassword, h]
    | some u =>
      intro _
      simpa [forgotPassword, h] using upsertTicket_filter st.tickets (lowerStr email)
        (Token.mk (lowerStr email) iat) hnd
  · by_cases hlen : p.length < 6
    · simp [resetPassword, hlen]
    · by_cases hft : findTicket st.tickets tok.email tok
      · intro _
        exact (findTicket_iff st.tickets tok.email tok).mp hft
      · simp [resetPassword, hlen, hft]
  · by_cases hlen : p.length < 6
    · simp [resetPassword, hlen]
    · by_cases hft : findTicket st.tickets tok.email tok
      · intro _
        have hst : (resetPassword st tok p).2.tickets
            = deleteFirstTicket st.tickets tok.email tok := by
          simp [resetPassword, hlen, hft]
        apply resetPassword_fails
        rw [hst]
        exact findTicket_delete st.tickets tok.email tok hnd
      · simp [resetPassword, hlen, hft]

theorem c8_reset_ticket_single_use_witness :
    ticketEmailsNodup
      (forgotPassword
        (AuthState.mk [UserRec.mk "u" "a@b.com" "h" true]
          [ResetTicket.mk "a@b.com" (Token.mk "a@b.com" 1)]) "a@b.com" 5).2.tickets ∧
    ((forgotPassword
        (AuthState.mk [UserRec.mk "u" "a@b.com" "h" true]
          [ResetTicket.mk "a@b.com" (Token.mk "a@b.com" 1)]) "a@b.com" 5).1
        = Resp.ok 200 "Password reset link sent to your email" →
      (forgotPassword
        (AuthState.mk [UserRec.mk "u" "a@b.com" "h" true]
          [ResetTicket.mk "a@b.com" (Token.mk "a@b.com" 1)]) "a@b.com" 5).2.tickets.filter
          (fun t => t.email == lowerStr "a@b.com")
        = [ResetTicket.mk (lowerStr "a@b.com") (Token.mk (lowerStr "a@b.com") 5)]) ∧
    ((resetPassword
        (AuthState.mk [UserRec.mk "u" "a@b.com" "h" true]
          [ResetTicket.mk "a@b.com" (Token.mk "a@b.com" 1)])
        (Token.mk "a@b.com" 1) "newpass").1
        = Resp.ok 200 "Password reset successfully" →
      ResetTicket.mk (Token.mk "a@b.com" 1).email (Token.mk "a@b.com" 1)
        ∈ (AuthState.mk [UserRec.mk "u" "a@b.com" "h" true]
            [ResetTicket.mk "a@b.com" (Token.mk "a@b.com" 1)]).tickets) ∧
    ((resetPassword
        (AuthState.mk [UserRec.mk "u" "a@b.com" "h" true]
          [ResetTicket.mk "a@b.com" (Token.mk "a@b.com" 1)])
        (Token.mk "a@b.com" 1) "newpass").1
        = Resp.ok 200 "Password reset successfully" →
      (resetPassword
        (resetPassword
          (AuthState.mk [UserRec.mk "u" "a@b.com" "h" true]
            [ResetTicket.mk "a@b.com" (Token.mk "a@b.com" 1)])
          (Token.mk "a@b.com" 1) "newpass").2
        (Token.mk "a@b.com" 1) "newpass2").1
        ≠ Resp.ok 200 "Password reset successfully") :=
  c8_reset_ticket_single_use
    (AuthState.mk [UserRec.mk "u" "a@b.com" "h" true]
      [ResetTicket.mk "a@b.com" (Token.mk "a@b.com" 1)])
    "a@b.com" 5 (Token.mk "a@b.com" 1) "newpass" "newpass2" (by decide)

theorem validateItems_total_congr (catalog : List Product) :
    ∀ (is1 is2 : List OrderItem), is1.map itemSkeleton = is2.map itemSkeleton →
    (validateItems catalog is1).map Prod.snd
      = (validateItems catalog is2).map Prod.snd := by
  intro is1
  induction is1 with
  | nil =>
    intro is2 h
    cases is2 with
    | nil => rfl
    | cons b bs => simp at h
  | cons a as ih =>
    intro is2 h
    cases is2 with
    | nil => simp at h
    | cons b bs =>
      simp only [List.map_cons, List.cons.injEq, itemSkeleton, Prod.mk.injEq] at h
      obtain ⟨⟨hpid, hqty⟩, htail⟩ := h
      have ht := ih bs htail
      simp only [validateItems, hpid]
      cases hf : findActiveById catalog b.productId with
      | none => simp
      | some p =>
        cases h1 : validateItems catalog as with
        | error e =>
          cases h2 : validateItems catalog bs with
          | error e2 =>
            rw [h1, h2] at ht
            simp only [Except.map] at ht ⊢
            simpa using ht
          | ok pr2 =>
            rw [h1, h2] at ht
            simp [Except.map] at ht
        | ok pr =>
          cases h2 : validateItems catalog bs with
          | error e2 =>
            rw [h1, h2] at ht
            simp [Except.map] at ht
          | ok pr2 =>
            rw [h1, h2] at ht
            obtain ⟨ls, t⟩ := pr
            obtain ⟨ls2, t2⟩ := pr2
            simp only [Except.map] at ht ⊢
            have htt : t = t2 := by simpa using ht
            simp [hqty, htt]

theorem validateItems_ok_total (catalog : List Product) :
    ∀ (items : List OrderItem) (lines : List OrderLine) (total : Int),
    validateItems catalog items = .ok (lines, total) →
    total = catalogTotal catalog items := by
  intro items
  induction items with
  | nil =>
    intro lines total h
    simp only [validateItems] at h
    have := (by simpa using h : [] = lines ∧ (0 : Int) = total)
    simp [catalogTotal, ← this.2]
  | cons item rest ih =>
    intro lines total h
    simp only [validateItems] at h
    cases hf : findActiveById catalog item.productId with
    | none =>
      rw [hf] at h
      simp at h
    | some p =>
      rw [hf] at h
      cases h1 : validateItems catalog rest with
      | error e =>
        rw [h1] at h
        simp at h
      | ok pr =>
        rw [h1] at h
        obtain ⟨ls, t⟩ := pr
        have hh := (by simpa using h :
          (OrderLine.mk item.productId item.quantity p.price item.measurements :: ls
            = lines) ∧ p.price * item.quantity + t = total)
        rw [catalogTotal, hf, ← hh.2, ih ls t h1]

/-- C1 counterexample: the legacy order handler (a cited variant of
POST `/api/orders`) persists the client-sent `totalAmount` verbatim, so an
order for one line of product 1 (live catalog price 100, quantity 2) with a
client-sent total of 999 is placed successfully with `totalAmount` 999,
not the recomputed 2 × 100 + 3 = 203. -/
theorem c1_counterexample :
    (createOrderLegacy
        (OrderRequest.mk [OrderItem.mk 1 2 (some 100) ""] "addr" "UPI" 999)
        (LegacyState.mk [] [CartItem.mk 1 2])).1
      = Resp.ok 201 "Order placed successfully" ∧
    (createOrderLegacy
        (OrderRequest.mk [OrderItem.mk 1 2 (some 100) ""] "addr" "UPI" 999)
        (LegacyState.mk [] [CartItem.mk 1 2])).2.orders.map LegacyOrder.totalAmount
      = [999] ∧
    findActiveById [Product.mk 1 100 true] 1 = some (Product.mk 1 100 true) ∧
    catalogTotal [Product.mk 1 100 true] [OrderItem.mk 1 2 (some 100) ""] + 3 = 203 ∧
    (999 : Int) ≠ 203 := by
  refine ⟨rfl, rfl, by decide, by decide, by decide⟩

/-- C1 (amended): in the current server's order handler, every successfully
validated order is persisted with `totalAmount` equal to the recomputed sum
of live catalog price × quantity over the lines plus the fixed delivery
charge 3, and a second request with the same product references and
quantities but different client-supplied per-line prices, measurements, or
client total is persisted with the same `totalAmount`. -/
theorem c1_total_recomputed (catalog : List Product) (req reqB : OrderRequest)
    (ccf ef ccfB efB : Bool) (st stB : OrderState)
    (lines : List OrderLine) (total : Int)
    (hok : validateItems catalog req.products = .ok (lines, total))
    (hsk : reqB.products.map itemSkeleton = req.products.map itemSkeleton) :
    (createOrderFull catalog req ccf ef st).2.orders
      = st.orders ++ [SavedOrder.mk lines req.deliveryAddress req.paymentMethod
          (total + 3) 3 "Placed"] ∧
    total = catalogTotal catalog req.products ∧
    (createOrderFull catalog reqB ccfB efB stB).2.orders.map SavedOrder.totalAmount
      = stB.orders.map SavedOrder.totalAmount ++ [total + 3] := by
  refine ⟨?_, validateItems_ok_total catalog req.products lines total hok, ?_⟩
  · simp only [createOrderFull, hok]
    by_cases hc : ccf
    · simp [hc]
    · by_cases he : ef
      · simp [hc, he]
      · simp [hc, he]
  · have ht := validateItems_total_congr catalog reqB.products req.products hsk
    rw [hok] at ht
    cases hB : validateItems catalog reqB.products with
    | error e =>
      rw [hB] at ht
      simp [Except.map] at ht
    | ok pr =>
      rw [hB] at ht
      obtain ⟨lsB, tB⟩ := pr
      have htt : tB = total := by simpa [Except.map] using ht
      simp only [createOrderFull, hB]
      by_cases hc : ccfB
      · simp [hc, htt]
      · by_cases he : efB
        · simp [hc, he, htt]
        · simp [hc, he, htt]

theorem c1_total_recomputed_witness :
    (createOrderFull [Product.mk 1 100 true]
        (OrderRequest.mk [OrderItem.mk 1 2 (some 77) "m"] "addr" "UPI" 999)
        false false (OrderState.mk [] [CartItem.mk 1 2] 0)).2.orders
      = [] ++ [SavedOrder.mk [OrderLine.mk 1 2 100 "m"] "addr" "UPI"
          (200 + 3) 3 "Placed"] ∧
    (200 : Int) = catalogTotal [Product.mk 1 100 true]
        [OrderItem.mk 1 2 (some 77) "m"] ∧
    (createOrderFull [Product.mk 1 100 true]
        (OrderRequest.mk [OrderItem.mk 1 2 none ""] "other" "Cash on Delivery" 5)
        true true (OrderState.mk [] [CartItem.mk 1 2] 0)).2.orders.map
          SavedOrder.totalAmount
      = ([] : List SavedOrder).map SavedOrder.totalAmount ++ [200 + 3] :=
  c1_total_recomputed [Product.mk 1 100 true]
    (OrderRequest.mk [OrderItem.mk 1 2 (some 77) "m"] "addr" "UPI" 999)
    (OrderRequest.mk [OrderItem.mk 1 2 none ""] "other" "Cash on Delivery" 5)
    false false true true
    (OrderState.mk [] [CartItem.mk 1 2] 0) (OrderState.mk [] [CartItem.mk 1 2] 0)
    [OrderLine.mk 1 2 100 "m"] 200 (by rfl) (by rfl)

theorem validateItems_error_of_invalid (catalog : List Product) :
    ∀ (items : List OrderItem) (item : OrderItem), item ∈ items →
    findActiveById catalog item.productId = none →
    ∃ pid, firstInvalid catalog items = some pid ∧
      validateItems catalog items
        = .error ("Product " ++ toString pid ++ " not found") ∧
      findActiveById catalog pid = none := by
  intro items
  induction items with
  | nil =>
    intro item h
    simp at h
  | cons a as ih =>
    intro item hmem hbad
    cases hf : findActiveById catalog a.productId with
    | none =>
      refine ⟨a.productId, ?_, ?_, hf⟩
      · simp [firstInvalid, hf]
      · simp [validateItems, hf]
    | some p =>
      have hmem' : item ∈ as := by
        rcases List.mem_cons.mp hmem with h | h
        · rw [h] at hbad
          rw [hf] at hbad
          simp at hbad
        · exact h
      obtain ⟨pid, h1, h2, h3⟩ := ih item hmem' hbad
      refine ⟨pid, ?_, ?_, h3⟩
      · simp [firstInvalid, hf, h1]
      · simp [validateItems, hf, h2]

/-- C2: if any line item of an order request references a product that is
absent from the catalog or inactive, the order handler answers 400 with the
product-not-found error naming the first failing reference and leaves the
state untouched: no order is persisted, the cart is unchanged, and no
confirmation notification is sent. -/
theorem c2_invalid_product_aborts (catalog : List Product) (req : OrderRequest)
    (ccf ef : Bool) (st : OrderState) (item : OrderItem)
    (hmem : item ∈ req.products)
    (hbad : findActiveById catalog item.productId = none) :
    createOrderFull catalog req ccf ef st =
      (Resp.err 400 ("Product " ++
          toString ((firstInvalid catalog req.products).getD 0) ++ " not found"),
       st) := by
  obtain ⟨pid, h1, h2, h3⟩ :=
    validateItems_error_of_invalid catalog req.products item hmem hbad
  simp [createOrderFull, h2, h1]

theorem c2_invalid_product_aborts_witness :
    createOrderFull [Product.mk 1 100 true]
        (OrderRequest.mk [OrderItem.mk 1 1 none "", OrderItem.mk 2 1 none ""]
          "addr" "UPI" 0)
        false false (OrderState.mk [] [CartItem.mk 1 1] 0) =
      (Resp.err 400 ("Product " ++
          toString ((firstInvalid [Product.mk 1 100 true]
            [OrderItem.mk 1 1 none "", OrderItem.mk 2 1 none ""]).getD 0)
          ++ " not found"),
       OrderState.mk [] [CartItem.mk 1 1] 0) :=
  c2_invalid_product_aborts [Product.mk 1 100 true]
    (OrderRequest.mk [OrderItem.mk 1 1 none "", OrderItem.mk 2 1 none ""]
      "addr" "UPI" 0)
    false false (OrderState.mk [] [CartItem.mk 1 1] 0) (OrderItem.mk 2 1 none "")
    (by decide) (by decide)

/-- C4 counterexample: with a valid one-line request, when the cart-clear
step fails the handler's outer catch answers 500 "Internal server error"
even though the order was already persisted (one order appended) — the
caller-visible result is not the success response, refuting the claim that
a failing secondary effect is always swallowed. -/
theorem c4_counterexample :
    (createOrderFull [Product.mk 1 100 true]
        (OrderRequest.mk [OrderItem.mk 1 2 none ""] "addr" "UPI" 0)
        true false (OrderState.mk [] [CartItem.mk 1 2] 0)).1
      = Resp.err 500 "Internal server error" ∧
    (createOrderFull [Product.mk 1 100 true]
        (OrderRequest.mk [OrderItem.mk 1 2 none ""] "addr" "UPI" 0)
        true false (OrderState.mk [] [CartItem.mk 1 2] 0)).2.orders.map
          SavedOrder.totalAmount
      = [203] := by
  refine ⟨rfl, rfl⟩

/-- C4 (amended): once validation succeeds the order is persisted and never
rolled back, whatever happens to the secondary effects; a confirmation-mail
failure is swallowed (the caller still receives the 201 success response
and no mail is counted); but a cart-clear failure escapes to the outer
catch and surfaces as a 500 internal error to the caller, with the
persisted order still in place. -/
theorem c4_secondary_effects (catalog : List Product) (req : OrderRequest)
    (ccf ef : Bool) (st : OrderState) (lines : List OrderLine) (total : Int)
    (hok : validateItems catalog req.products = .ok (lines, total)) :
    (createOrderFull catalog req ccf ef st).2.orders
      = st.orders ++ [SavedOrder.mk lines req.deliveryAddress req.paymentMethod
          (total + 3) 3 "Placed"] ∧
    (createOrderFull catalog req false true st).1
      = Resp.ok 201 "Order placed successfully" ∧
    (createOrderFull catalog req false true st).2.emailsSent = st.emailsSent ∧
    (createOrderFull catalog req true ef st).1
      = Resp.err 500 "Internal server error" := by
  refine ⟨?_, ?_, ?_, ?_⟩
  · simp only [createOrderFull, hok]
    by_cases hc : ccf
    · simp [hc]
    · by_cases he : ef
      · simp [hc, he]
      · simp [hc, he]
  · simp [createOrderFull, hok]
  · simp [createOrderFull, hok]
  · simp [createOrderFull, hok]

theorem c4_secondary_effects_witness :
    (createOrderFull [Product.mk 1 100 true]
        (OrderRequest.mk [OrderItem.mk 1 2 none ""] "addr" "UPI" 0)
        true false (OrderState.mk [] [CartItem.mk 1 2] 0)).2.orders
      = [] ++ [SavedOrder.mk [OrderLine.mk 1 2 100 ""] "addr" "UPI"
          (200 + 3) 3 "Placed"] ∧
    (createOrderFull [Product.mk 1 100 true]
        (OrderRequest.mk [OrderItem.mk 1 2 none ""] "addr" "UPI" 0)
        false true (OrderState.mk [] [CartItem.mk 1 2] 0)).1
      = Resp.ok 201 "Order placed successfully" ∧
    (createOrderFull [Product.mk 1 100 true]
        (OrderRequest.mk [OrderItem.mk 1 2 none ""] "addr" "UPI" 0)
        false true (OrderState.mk [] [CartItem.mk 1 2] 0)).2.emailsSent
      = (OrderState.mk [] [CartItem.mk 1 2] 0).emailsSent ∧
    (createOrderFull [Product.mk 1 100 true]
        (OrderRequest.mk [OrderItem.mk 1 2 none ""] "addr" "UPI" 0)
        true false (OrderState.mk [] [CartItem.mk 1 2] 0)).1
      = Resp.err 500 "Internal server error" :=
  c4_secondary_effects [Product.mk 1 100 true]
    (OrderRequest.mk [OrderItem.mk 1 2 none ""] "addr" "UPI" 0)
    true false (OrderState.mk [] [CartItem.mk 1 2] 0)
    [OrderLine.mk 1 2 100 ""] 200 (by rfl)

/-- JS `String(n).padStart(4, '0')` as the order-number hook uses it. -/
def pad4 (n : Nat) : String :=
  let s := toString n
  if s.length < 4 then String.mk (List.replicate (4 - s.length) '0') ++ s else s

/-- The order number the `orderSchema.pre('save')` hook formats:
`` `ORD${Date.now()}${String(count + 1).padStart(4, '0')}` `` where `count`
is the `countDocuments()` result read in the hook. -/
def genOrderNumber (now count : Nat) : String :=
  "ORD" ++ toString now ++ pad4 (count + 1)

/-- Progress of one in-flight `order.save()` through the pre-save hook: not
yet started, holding the count it read, or done. -/
inductive SaveState where
  | ready
  | counted (c : Nat)
  | saved
deriving DecidableEq, Repr

/-- One step of a save running the pre-save hook: first
`countDocuments()` (an awaited read of the order collection's size), then
the formatted order number is assigned and the document inserted.  A
finished save does nothing. -/
def stepSave (now : Nat) : List String × SaveState → List String × SaveState
  | (orders, .ready) => (orders, .counted orders.length)
  | (orders, .counted c) => (orders ++ [genOrderNumber now c], .saved)
  | (orders, .saved) => (orders, .saved)

/-- Two concurrent saves within one process interleaved by a schedule:
`false` steps the first save, `true` the second, over the shared order
collection.  Both saves run at the same millisecond timestamp `now`, as
`Date.now()` permits. -/
def runSchedule (now : Nat) :
    List Bool → List String × SaveState × SaveState →
    List String × SaveState × SaveState
  | [], s => s
  | b :: bs, (orders, t1, t2) =>
    if b then
      runSchedule now bs ((stepSave now (orders, t2)).1, t1,
        (stepSave now (orders, t2)).2)
    else
      runSchedule now bs ((stepSave now (orders, t1)).1,
        (stepSave now (orders, t1)).2, t2)

/-- C3: the count-then-format pre-save hook is race-prone.  Under the
interleaving read-count₁, read-count₂, write₁, write₂ at the same
timestamp, both saves read count 0 and both orders are persisted with the
identical order number "ORD170001" — the resulting order numbers are not
distinct, contradicting the claimed collision freedom (and the schema's
`unique: true` declaration for `orderNumber`); only the fully sequential
interleaving yields the distinct numbers "ORD170001", "ORD170002". -/
theorem c3_order_number_race :
    (runSchedule 17 [false, true, false, true]
        ([], SaveState.ready, SaveState.ready)).1
      = ["ORD170001", "ORD170001"] ∧
    ¬ ((runSchedule 17 [false, true, false, true]
        ([], SaveState.ready, SaveState.ready)).1).Nodup ∧
    (runSchedule 17 [false, false, true, true]
        ([], SaveState.ready, SaveState.ready)).1
      = ["ORD170001", "ORD170002"] := by
  refine ⟨rfl, by decide, rfl⟩
